import Mathlib

/-!
Verification of the snowflake-id-generator repository (src/index.ts).

The source is TypeScript working on JavaScript `BigInt` (arbitrary-precision
signed integers with two's-complement bitwise semantics) and plain `number`
values that are non-negative integers throughout the generator.  The shallow
embedding uses `Int` for every `BigInt` value (Mathlib's `Int.lor`, `Int.land`
and the `<<<`/`>>>` instances implement exactly the two's-complement semantics
of BigInt `|`, `&`, `<<`, `>>`) and `Nat` for the `number`-typed machine id
and sequence counter.

Effects are made explicit:
* `Date.now()` readings are passed as arguments;
* the busy-wait loop `waitForNextMillisecond(last)` is abstracted by a
  function `wait : Int → Int` giving the clock value at which the loop exits;
  the loop's exit condition guarantees `last < wait last`, which theorems
  take as a hypothesis where they need it;
* `console.warn` observability output is modelled as a list of warned drift
  values so that the `warnOnDrift` flag is not erased by the embedding;
* `throw` is modelled with `Except` / explicit error fields, keeping the
  source's order of state mutations relative to the throw.
-/

namespace Snowflake

/-- `const MACHINE_ID_BITS = 10`. -/
def MACHINE_ID_BITS : Nat := 10

/-- `const SEQUENCE_BITS = 12`. -/
def SEQUENCE_BITS : Nat := 12

/-- `const MAX_MACHINE_ID = (1 << MACHINE_ID_BITS) - 1  // 1023`. -/
def MAX_MACHINE_ID : Nat := (1 <<< MACHINE_ID_BITS) - 1

/-- `const MAX_SEQUENCE = (1 << SEQUENCE_BITS) - 1  // 4095`. -/
def MAX_SEQUENCE : Nat := (1 <<< SEQUENCE_BITS) - 1

/-- `const MACHINE_ID_SHIFT = SEQUENCE_BITS  // 12`. -/
def MACHINE_ID_SHIFT : Nat := SEQUENCE_BITS

/-- `const TIMESTAMP_SHIFT = SEQUENCE_BITS + MACHINE_ID_BITS  // 22`. -/
def TIMESTAMP_SHIFT : Nat := SEQUENCE_BITS + MACHINE_ID_BITS

/-- `const DEFAULT_EPOCH = 1752383159010  // July 13, 2025`. -/
def DEFAULT_EPOCH : Nat := 1752383159010

/-- `constructSnowflakeId(timestamp, epoch, machineId, sequence)`:
`((timestamp - epoch) << 22n) | (BigInt(machineId) << 12n) | BigInt(sequence)`. -/
def constructSnowflakeId (timestamp epoch : Int) (machineId sequence : Nat) : Int :=
  Int.lor
    (Int.lor ((timestamp - epoch) <<< (TIMESTAMP_SHIFT : Int))
      ((machineId : Int) <<< (MACHINE_ID_SHIFT : Int)))
    (sequence : Int)

/-- The fields `parseSnowflakeId` extracts (the returned object also echoes
the input id as a string; the string formatting is not modelled). -/
structure ParsedInfo where
  timestamp : Int
  machineId : Int
  sequence : Int
deriving DecidableEq, Repr

/-- `parseSnowflakeId(id, epoch)`: `sequence = id & 0xFFFn`,
`machineId = (id >> 12n) & 0x3FFn`, `timestamp = (id >> 22n) + epoch`.
The `Number(...)` conversions are exact on the integer results involved. -/
def parseSnowflakeId (id : Int) (epoch : Int) : ParsedInfo :=
  { timestamp := (id >>> (TIMESTAMP_SHIFT : Int)) + epoch
    machineId := Int.land (id >>> (MACHINE_ID_SHIFT : Int)) (MAX_MACHINE_ID : Int)
    sequence := Int.land id (MAX_SEQUENCE : Int) }

/-- The closure state created by `createGeneratorState()`:
`sequence = 0`, `lastTimestamp = -1n`. -/
structure GeneratorState where
  sequence : Nat
  lastTimestamp : Int
deriving DecidableEq, Repr

/-- `createGeneratorState()` initial values. -/
def createGeneratorState : GeneratorState :=
  { sequence := 0, lastTimestamp := -1 }

/-- The error thrown by `handleClockDrift` when drift exceeds 5000 ms;
it carries the drift magnitude interpolated into the error message. -/
structure ClockDriftError where
  drift : Int
deriving DecidableEq, Repr

/-- `handleClockDrift(currentTimestamp, lastTimestamp, warnOnDrift)`:
computes `drift = lastTimestamp - currentTimestamp`, warns when
`warnOnDrift` is set (modelled as the list of warned drift values), and
throws when `drift > 5000n`. -/
def handleClockDrift (currentTimestamp lastTimestamp : Int) (warnOnDrift : Bool) :
    List Int × Option ClockDriftError :=
  let drift := lastTimestamp - currentTimestamp
  let warnings := if warnOnDrift then [drift] else []
  if drift > 5000 then (warnings, some { drift := drift }) else (warnings, none)

/-- The triple `{ id, timestamp, sequence }` returned by
`generateSnowflakeWithState`. -/
structure GenResult where
  id : Int
  timestamp : Int
  sequence : Nat
deriving DecidableEq, Repr

/-- One `generateSnowflakeWithState` call's observable outcome: the warnings
emitted, the returned value or thrown error, and the generator state as it
stands when the call ends (also on the throwing path, where the source throws
before any mutation of the closure state). -/
structure GenOutcome where
  warnings : List Int
  result : Except ClockDriftError GenResult
  state : GeneratorState
deriving Repr

/-- Lines 121-134 of `generateSnowflakeWithState`, after drift handling:
same-millisecond sequence increment (`(sequence + 1) & MAX_SEQUENCE`),
sequence-overflow busy-wait, sequence reset on a fresh millisecond, then
`setLastTimestamp` and the packed id.  `timestamp` is the value the local
variable holds when this code is reached; `wait last` is the clock value at
which `waitForNextMillisecond(last)` exits. -/
def generateTail (state : GeneratorState) (epoch : Int) (machineId : Nat)
    (timestamp : Int) (wait : Int → Int) : GenResult × GeneratorState :=
  if timestamp = state.lastTimestamp then
    let seq := (state.sequence + 1) &&& MAX_SEQUENCE
    if seq = 0 then
      let ts := wait state.lastTimestamp
      ({ id := constructSnowflakeId ts epoch machineId seq, timestamp := ts, sequence := seq },
       { sequence := seq, lastTimestamp := ts })
    else
      ({ id := constructSnowflakeId timestamp epoch machineId seq, timestamp := timestamp,
         sequence := seq },
       { sequence := seq, lastTimestamp := timestamp })
  else
    ({ id := constructSnowflakeId timestamp epoch machineId 0, timestamp := timestamp,
       sequence := 0 },
     { sequence := 0, lastTimestamp := timestamp })

/-- `generateSnowflakeWithState(state, epoch, machineId, warnOnDrift)` with the
initial `Date.now()` reading `now` passed explicitly and the busy-wait
abstracted by `wait` (see the header comment). -/
def generateSnowflakeWithState (state : GeneratorState) (epoch : Int) (machineId : Nat)
    (warnOnDrift : Bool) (now : Int) (wait : Int → Int) : GenOutcome :=
  if now < state.lastTimestamp then
    match handleClockDrift now state.lastTimestamp warnOnDrift with
    | (warnings, some e) => { warnings := warnings, result := Except.error e, state := state }
    | (warnings, none) =>
      let rest := generateTail state epoch machineId (wait state.lastTimestamp) wait
      { warnings := warnings, result := Except.ok rest.1, state := rest.2 }
  else
    let rest := generateTail state epoch machineId now wait
    { warnings := [], result := Except.ok rest.1, state := rest.2 }

/-- The construction-time errors of `createSnowflakeGenerator`:
`validateMachineId`'s error (carrying the offending machine id) and
`validateEpoch`'s error. -/
inductive ConstructionError where
  | invalidMachineId (machineId : Int)
  | invalidEpoch
deriving DecidableEq, Repr

/-- `validateMachineId(machineId)`: throws unless the machine id is an
integer in `[0, MAX_MACHINE_ID]`.  The embedding's `Int` domain makes the
`Number.isInteger` conjunct always true. -/
def validateMachineId (machineId : Int) : Except ConstructionError Unit :=
  if machineId < 0 ∨ (MAX_MACHINE_ID : Int) < machineId then
    Except.error (ConstructionError.invalidMachineId machineId)
  else Except.ok ()

/-- `validateEpoch(epoch)` with the `Date.now()` reading passed explicitly:
throws when `epoch >= now`.  The near-overflow `console.warn` is
observability only and is not modelled here. -/
def validateEpoch (epoch now : Int) : Except ConstructionError Unit :=
  if now ≤ epoch then Except.error ConstructionError.invalidEpoch else Except.ok ()

/-- `generateMachineIdFromHostname()` success path:
`((hash[0] << 8) | hash[1]) & MAX_MACHINE_ID` on the first two bytes of the
SHA-256 digest of the hostname, passed here as `hash0`, `hash1`. -/
def generateMachineIdFromHostname (hash0 hash1 : Nat) : Nat :=
  ((hash0 <<< 8) ||| hash1) &&& MAX_MACHINE_ID

/-- `generateMachineIdFromHostname()` catch path:
`Math.floor(Math.random() * (MAX_MACHINE_ID + 1))`, with the `Math.random()`
value (a binary float in `[0,1)`, hence a rational) passed as `r`. -/
def randomMachineIdFallback (r : ℚ) : Int :=
  Int.floor (r * ((MAX_MACHINE_ID : ℚ) + 1))

/-- The immutable configuration captured by the closures returned from
`createSnowflakeGenerator`. -/
structure GeneratorConfig where
  machineId : Int
  epoch : Int
  warnOnDrift : Bool
deriving DecidableEq, Repr

/-- `createSnowflakeGenerator(options)` configuration setup and validation:
defaulting of the three options, `validateMachineId` run only when
`options.machineId !== undefined`, then `validateEpoch`.  `hash0`/`hash1`
feed the hostname-hash default; `now` is the construction-time clock. -/
def createSnowflakeGenerator (optMachineId optEpoch : Option Int) (optWarn : Option Bool)
    (hash0 hash1 : Nat) (now : Int) : Except ConstructionError GeneratorConfig :=
  let machineId : Int :=
    match optMachineId with
    | some m => m
    | none => (generateMachineIdFromHostname hash0 hash1 : Nat)
  let epoch : Int := optEpoch.getD (DEFAULT_EPOCH : Nat)
  let warnOnDrift : Bool := optWarn.getD true
  match (match optMachineId with
         | some _ => validateMachineId machineId
         | none => Except.ok ()) with
  | Except.error e => Except.error e
  | Except.ok _ =>
    match validateEpoch epoch now with
    | Except.error e => Except.error e
    | Except.ok _ =>
      Except.ok { machineId := machineId, epoch := epoch, warnOnDrift := warnOnDrift }

/-! ### Helper lemmas about the bit-level arithmetic -/

theorem land_coe (a b : Nat) : Int.land (a : Int) (b : Int) = ((a &&& b : Nat) : Int) := rfl

theorem lor_coe (a b : Nat) : Int.lor (a : Int) (b : Int) = ((a ||| b : Nat) : Int) := rfl

theorem land_negSucc_coe (m n : Nat) :
    Int.land (Int.negSucc m) (n : Int) = ((Nat.ldiff n m : Nat) : Int) := rfl

/-- Packing a value below `2 ^ k` into the zero low bits of `a * 2 ^ k` is
addition. -/
theorem mul_pow_lor_eq_add (a b k : Nat) (h : b < 2 ^ k) :
    (a * 2 ^ k) ||| b = a * 2 ^ k + b := by
  apply Nat.eq_of_testBit_eq
  intro j
  rw [Nat.testBit_or, show a * 2 ^ k + b = 2 ^ k * a + b by ring_nf,
    Nat.testBit_mul_pow_two_add a h j, ← Nat.shiftLeft_eq, Nat.testBit_shiftLeft]
  rcases lt_or_ge j k with hj | hj
  · simp [hj, Nat.not_le.mpr hj]
  · have hb : b.testBit j = false := by
      apply Nat.testBit_lt_two_pow
      exact lt_of_lt_of_le h (Nat.pow_le_pow_right (by norm_num) hj)
    simp [hb, hj, Nat.not_lt.mpr hj]

theorem ldiff_le (n m : Nat) : Nat.ldiff n m ≤ n := by
  have h : Nat.ldiff n m = (Nat.ldiff n m) &&& n := by
    apply Nat.eq_of_testBit_eq
    intro j
    rw [Nat.testBit_and, Nat.testBit_ldiff]
    cases n.testBit j <;> cases m.testBit j <;> rfl
  rw [h]
  exact Nat.and_le_right

/-- Masking any integer (also a negative one, in two's complement) with a
non-negative mask yields a value in `[0, mask]`. -/
theorem land_mask_bounds (x : Int) (n : Nat) :
    0 ≤ Int.land x (n : Int) ∧ Int.land x (n : Int) ≤ (n : Int) := by
  cases x with
  | ofNat m =>
    rw [show Int.ofNat m = (m : Int) from rfl, land_coe]
    exact ⟨by positivity, by exact_mod_cast Nat.and_le_right⟩
  | negSucc m =>
    rw [land_negSucc_coe]
    exact ⟨by positivity, by exact_mod_cast ldiff_le n m⟩

/-- `constructSnowflakeId` is plain positional arithmetic when the fields are
in range: the or-ed fields do not overlap. -/
theorem constructSnowflakeId_eq (t e : Int) (m s : Nat)
    (hte : e ≤ t) (hm : m ≤ 1023) (hs : s ≤ 4095) :
    constructSnowflakeId t e m s = (t - e) * 2 ^ 22 + (m : Int) * 2 ^ 12 + (s : Int) := by
  obtain ⟨T, hT⟩ : ∃ T : Nat, t - e = (T : Int) := ⟨(t - e).toNat, by omega⟩
  rw [constructSnowflakeId, hT]
  rw [show TIMESTAMP_SHIFT = 22 from rfl, show MACHINE_ID_SHIFT = 12 from rfl]
  rw [Int.shiftLeft_coe_nat, Int.shiftLeft_coe_nat, lor_coe, lor_coe]
  rw [Nat.shiftLeft_eq, Nat.shiftLeft_eq]
  rw [mul_pow_lor_eq_add T (m * 2 ^ 12) 22 (by nlinarith)]
  rw [show T * 2 ^ 22 + m * 2 ^ 12 = (T * 2 ^ 10 + m) * 2 ^ 12 by ring]
  rw [mul_pow_lor_eq_add (T * 2 ^ 10 + m) s 12 (by omega)]
  push_cast
  ring

/-- **C1**: for every machineId in [0,1023], sequence in [0,4095] and
generation timestamp `now` with `0 ≤ now - epoch < 2^41`, parsing the id
generated by `constructSnowflakeId` with the same epoch recovers exactly the
fields used to construct it. -/
theorem roundtrip_construct_parse (now epoch : Int) (machineId sequence : Nat)
    (hm : machineId ≤ 1023) (hs : sequence ≤ 4095)
    (h0 : 0 ≤ now - epoch) (h41 : now - epoch < 2 ^ 41) :
    parseSnowflakeId (constructSnowflakeId now epoch machineId sequence) epoch =
      { timestamp := now, machineId := (machineId : Int), sequence := (sequence : Int) } := by
  obtain ⟨T, hT⟩ : ∃ T : Nat, now - epoch = (T : Int) := ⟨(now - epoch).toNat, by omega⟩
  set N : Nat := (T * 2 ^ 10 + machineId) * 2 ^ 12 + sequence with hN
  have hc : constructSnowflakeId now epoch machineId sequence = (N : Int) := by
    rw [constructSnowflakeId_eq now epoch machineId sequence (by omega) hm hs, hT, hN]
    push_cast
    ring
  have hp12 : (2 : Nat) ^ 12 = 4096 := by norm_num
  have hp10 : (2 : Nat) ^ 10 = 1024 := by norm_num
  have hp22 : (2 : Nat) ^ 22 = 4194304 := by norm_num
  rw [parseSnowflakeId, hc]
  rw [show TIMESTAMP_SHIFT = 22 from rfl, show MACHINE_ID_SHIFT = 12 from rfl,
      show (MAX_MACHINE_ID : Int) = ((1023 : Nat) : Int) from rfl,
      show (MAX_SEQUENCE : Int) = ((4095 : Nat) : Int) from rfl]
  rw [Int.shiftRight_coe_nat, Int.shiftRight_coe_nat, Nat.shiftRight_eq_div_pow,
      Nat.shiftRight_eq_div_pow, land_coe, land_coe]
  rw [show (1023 : Nat) = 2 ^ 10 - 1 by norm_num, show (4095 : Nat) = 2 ^ 12 - 1 by norm_num,
      Nat.and_pow_two_sub_one_eq_mod, Nat.and_pow_two_sub_one_eq_mod]
  have hdiv22 : N / 2 ^ 22 = T := by rw [hN, hp12, hp10, hp22]; omega
  have hdiv12 : (N / 2 ^ 12) % 2 ^ 10 = machineId := by rw [hN, hp12, hp10]; omega
  have hmod12 : N % 2 ^ 12 = sequence := by rw [hN, hp12]; omega
  rw [hdiv22, hdiv12, hmod12, show (T : Int) + epoch = now by omega]

/-- Witness for C1 at `now = 1000`, `epoch = 0`, `machineId = 5`,
`sequence = 7`. -/
theorem roundtrip_construct_parse_witness :
    (5 : Nat) ≤ 1023 ∧ (7 : Nat) ≤ 4095 ∧ 0 ≤ (1000 : Int) - 0 ∧ (1000 : Int) - 0 < 2 ^ 41 ∧
    parseSnowflakeId (constructSnowflakeId 1000 0 5 7) 0 =
      { timestamp := 1000, machineId := 5, sequence := 7 } :=
  ⟨by decide, by decide, by decide, by decide,
    roundtrip_construct_parse 1000 0 5 7 (by decide) (by decide) (by decide) (by decide)⟩

/-- **C5**: `parseSnowflakeId`, for every 64-bit integer input and every
epoch, returns exactly `{sequence := id & 0xFFF, machineId := (id >> 12) & 0x3FF,
timestamp := (id >> 22) + epoch}` with no validation and no error path; the
returned machineId is always in [0,1023] and sequence in [0,4095]; and
`parseSnowflakeId 4194324480 0 = {timestamp := 1000, machineId := 5,
sequence := 0}`. -/
theorem parse_fields (id epoch : Int) (h0 : -(2 ^ 63) ≤ id) (h1 : id < 2 ^ 63) :
    parseSnowflakeId id epoch =
      { timestamp := (id >>> (22 : Int)) + epoch
        machineId := Int.land (id >>> (12 : Int)) 1023
        sequence := Int.land id 4095 }
    ∧ 0 ≤ (parseSnowflakeId id epoch).machineId ∧ (parseSnowflakeId id epoch).machineId ≤ 1023
    ∧ 0 ≤ (parseSnowflakeId id epoch).sequence ∧ (parseSnowflakeId id epoch).sequence ≤ 4095
    ∧ parseSnowflakeId 4194324480 0 = { timestamp := 1000, machineId := 5, sequence := 0 } := by
  have hmid := land_mask_bounds (id >>> ((MACHINE_ID_SHIFT : Nat) : Int)) MAX_MACHINE_ID
  have hseq := land_mask_bounds id MAX_SEQUENCE
  have c1023 : ((MAX_MACHINE_ID : Nat) : Int) = 1023 := by decide
  have c4095 : ((MAX_SEQUENCE : Nat) : Int) = 4095 := by decide
  refine ⟨?_, hmid.1, ?_, hseq.1, ?_, by decide⟩
  · rw [parseSnowflakeId, show ((TIMESTAMP_SHIFT : Nat) : Int) = (22 : Int) by decide,
      show ((MACHINE_ID_SHIFT : Nat) : Int) = (12 : Int) by decide, c1023, c4095]
  · calc (parseSnowflakeId id epoch).machineId ≤ ((MAX_MACHINE_ID : Nat) : Int) := hmid.2
      _ = 1023 := c1023
  · calc (parseSnowflakeId id epoch).sequence ≤ ((MAX_SEQUENCE : Nat) : Int) := hseq.2
      _ = 4095 := c4095

/-- Witness for C5 at `id = 4194324480`, `epoch = 0`. -/
theorem parse_fields_witness :
    -(2 ^ 63) ≤ (4194324480 : Int) ∧ (4194324480 : Int) < 2 ^ 63 ∧
    parseSnowflakeId 4194324480 0 = { timestamp := 1000, machineId := 5, sequence := 0 } :=
  ⟨by decide, by decide, (parse_fields 4194324480 0 (by decide) (by decide)).2.2.2.2.2⟩

/-! ### Helper lemmas about one `generateSnowflakeWithState` call -/

/-- Closed form of one call, by case analysis on the clock-drift branch. -/
theorem generate_eq (s : GeneratorState) (e : Int) (m : Nat) (b : Bool)
    (now : Int) (wait : Int → Int) :
    generateSnowflakeWithState s e m b now wait =
      if now < s.lastTimestamp then
        if s.lastTimestamp - now > 5000 then
          { warnings := if b then [s.lastTimestamp - now] else []
            result := Except.error { drift := s.lastTimestamp - now }
            state := s }
        else
          { warnings := if b then [s.lastTimestamp - now] else []
            result := Except.ok (generateTail s e m (wait s.lastTimestamp) wait).1
            state := (generateTail s e m (wait s.lastTimestamp) wait).2 }
      else
        { warnings := []
          result := Except.ok (generateTail s e m now wait).1
          state := (generateTail s e m now wait).2 } := by
  rw [generateSnowflakeWithState, handleClockDrift]
  by_cases h1 : now < s.lastTimestamp <;> by_cases h2 : s.lastTimestamp - now > 5000 <;>
    simp [h1, h2]

/-- What a successful call guarantees: the final state mirrors the returned
timestamp and sequence, the id is the packed triple, the sequence is in
range, timestamps do not regress, and a call that stays in the same
millisecond incremented the sequence without wrapping. -/
theorem generate_ok_spec (s : GeneratorState) (e : Int) (m : Nat) (b : Bool)
    (now : Int) (wait : Int → Int) (r : GenResult)
    (hw : ∀ t, t < wait t)
    (hr : (generateSnowflakeWithState s e m b now wait).result = Except.ok r) :
    (generateSnowflakeWithState s e m b now wait).state =
        { sequence := r.sequence, lastTimestamp := r.timestamp }
    ∧ r.id = constructSnowflakeId r.timestamp e m r.sequence
    ∧ r.sequence ≤ 4095
    ∧ now ≤ r.timestamp
    ∧ s.lastTimestamp ≤ r.timestamp
    ∧ (r.timestamp = s.lastTimestamp →
        r.sequence = (s.sequence + 1) &&& MAX_SEQUENCE ∧ r.sequence ≠ 0) := by
  have hmask : ∀ x : Nat, x &&& MAX_SEQUENCE ≤ 4095 := fun x =>
    le_trans Nat.and_le_right (by decide)
  by_cases h1 : now < s.lastTimestamp
  · by_cases h2 : s.lastTimestamp - now > 5000
    · have hout : (generateSnowflakeWithState s e m b now wait).result =
          Except.error { drift := s.lastTimestamp - now } := by
        rw [generate_eq]
        simp [h1, h2]
      rw [hout] at hr
      exact absurd hr (by simp)
    · have hwait := hw s.lastTimestamp
      have hne : ¬ wait s.lastTimestamp = s.lastTimestamp := by omega
      have hout : generateSnowflakeWithState s e m b now wait =
          { warnings := if b then [s.lastTimestamp - now] else []
            result := Except.ok
              { id := constructSnowflakeId (wait s.lastTimestamp) e m 0
                timestamp := wait s.lastTimestamp, sequence := 0 }
            state := { sequence := 0, lastTimestamp := wait s.lastTimestamp } } := by
        rw [generate_eq]
        simp [h1, h2, generateTail, hne]
      rw [hout] at hr ⊢
      dsimp only at hr ⊢
      injection hr with hrr
      subst hrr
      dsimp only
      refine ⟨rfl, rfl, by omega, by omega, by omega, fun h => absurd h (by omega)⟩
  · by_cases h3 : now = s.lastTimestamp
    · by_cases h4 : (s.sequence + 1) &&& MAX_SEQUENCE = 0
      · have hwait := hw s.lastTimestamp
        have hout : generateSnowflakeWithState s e m b now wait =
            { warnings := []
              result := Except.ok
                { id := constructSnowflakeId (wait s.lastTimestamp) e m
                    ((s.sequence + 1) &&& MAX_SEQUENCE)
                  timestamp := wait s.lastTimestamp
                  sequence := (s.sequence + 1) &&& MAX_SEQUENCE }
              state := { sequence := (s.sequence + 1) &&& MAX_SEQUENCE
                         lastTimestamp := wait s.lastTimestamp } } := by
          rw [generate_eq]
          simp only [if_neg h1, generateTail, if_pos h3, if_pos h4]
        rw [hout] at hr ⊢
        dsimp only at hr ⊢
        injection hr with hrr
        subst hrr
        dsimp only
        refine ⟨rfl, rfl, hmask _, by omega, by omega, fun h => absurd h (by omega)⟩
      · have hout : generateSnowflakeWithState s e m b now wait =
            { warnings := []
              result := Except.ok
                { id := constructSnowflakeId now e m ((s.sequence + 1) &&& MAX_SEQUENCE)
                  timestamp := now, sequence := (s.sequence + 1) &&& MAX_SEQUENCE }
              state := { sequence := (s.sequence + 1) &&& MAX_SEQUENCE
                         lastTimestamp := now } } := by
          rw [generate_eq]
          simp only [if_neg h1, generateTail, if_pos h3, if_neg h4]
        rw [hout] at hr ⊢
        dsimp only at hr ⊢
        injection hr with hrr
        subst hrr
        dsimp only
        refine ⟨by rw [h3], rfl, hmask _, le_refl now, by omega, fun _ => ⟨rfl, h4⟩⟩
    · have hout : generateSnowflakeWithState s e m b now wait =
          { warnings := []
            result := Except.ok
              { id := constructSnowflakeId now e m 0, timestamp := now, sequence := 0 }
            state := { sequence := 0, lastTimestamp := now } } := by
        rw [generate_eq]
        simp only [if_neg h1, generateTail, if_neg h3]
      rw [hout] at hr ⊢
      dsimp only at hr ⊢
      injection hr with hrr
      subst hrr
      dsimp only
      refine ⟨rfl, rfl, by omega, le_refl now, by omega, fun h => absurd h h3⟩

theorem and_max_sequence_eq_mod (x : Nat) : x &&& MAX_SEQUENCE = x % 4096 := by
  rw [show MAX_SEQUENCE = 2 ^ 12 - 1 by decide, Nat.and_pow_two_sub_one_eq_mod]

/-- **C9**: the `warnOnDrift` flag does not affect the returned value, the
thrown error, or the final generator state of a `generateSnowflakeWithState`
call; it only gates the observability warning. -/
theorem warnOnDrift_no_effect (s : GeneratorState) (e : Int) (m : Nat)
    (now : Int) (wait : Int → Int) (b1 b2 : Bool) :
    (generateSnowflakeWithState s e m b1 now wait).result =
      (generateSnowflakeWithState s e m b2 now wait).result
    ∧ (generateSnowflakeWithState s e m b1 now wait).state =
      (generateSnowflakeWithState s e m b2 now wait).state := by
  rw [generate_eq, generate_eq]
  split_ifs <;> exact ⟨rfl, rfl⟩

/-- **C3**: the call errors exactly when the clock moved backwards by more
than 5000 ms, the error carries the drift magnitude
`lastTimestamp - now`, and a backward jump of at most 5000 ms raises no
error: the engine waits (`wait`) and succeeds with the waited timestamp,
which lies strictly beyond `lastTimestamp`. -/
theorem clock_drift_spec (s : GeneratorState) (e : Int) (m : Nat) (b : Bool)
    (now : Int) (wait : Int → Int) (hw : ∀ t, t < wait t) :
    (∀ err, (generateSnowflakeWithState s e m b now wait).result = Except.error err ↔
      now < s.lastTimestamp ∧ 5000 < s.lastTimestamp - now ∧
        err = { drift := s.lastTimestamp - now })
    ∧ (now < s.lastTimestamp → s.lastTimestamp - now ≤ 5000 →
        (generateSnowflakeWithState s e m b now wait).result =
          Except.ok { id := constructSnowflakeId (wait s.lastTimestamp) e m 0
                      timestamp := wait s.lastTimestamp, sequence := 0 }
        ∧ s.lastTimestamp < wait s.lastTimestamp) := by
  rw [generate_eq]
  by_cases h1 : now < s.lastTimestamp
  · by_cases h2 : s.lastTimestamp - now > 5000
    · rw [if_pos h1, if_pos h2]
      refine ⟨fun err => ?_, fun _ hle => absurd hle (by omega)⟩
      dsimp only
      constructor
      · intro h
        injection h with h
        exact ⟨h1, h2, h.symm⟩
      · rintro ⟨-, -, rfl⟩
        rfl
    · have hne : ¬ wait s.lastTimestamp = s.lastTimestamp := by
        have := hw s.lastTimestamp
        omega
      rw [if_pos h1, if_neg h2]
      dsimp only
      rw [generateTail, if_neg hne]
      refine ⟨fun err => ⟨fun h => ?_, ?_⟩, fun _ _ => ⟨rfl, hw s.lastTimestamp⟩⟩
      · exact absurd h (by simp)
      · rintro ⟨-, habs, -⟩
        omega
  · rw [if_neg h1]
    dsimp only
    refine ⟨fun err => ⟨fun h => absurd h (by simp), ?_⟩, fun habs _ => absurd habs h1⟩
    rintro ⟨habs, -, -⟩
    exact absurd habs h1

/-- **C4**: a call is atomic with respect to the generator state: on the
error path the state is exactly the state before the call (the drift check
precedes every mutation), and on every successful call the state advances —
`lastTimestamp` becomes the timestamp packed into the returned id. -/
theorem generate_atomic (s : GeneratorState) (e : Int) (m : Nat) (b : Bool)
    (now : Int) (wait : Int → Int) (hw : ∀ t, t < wait t) :
    (∀ err, (generateSnowflakeWithState s e m b now wait).result = Except.error err →
      (generateSnowflakeWithState s e m b now wait).state = s)
    ∧ (∀ r, (generateSnowflakeWithState s e m b now wait).result = Except.ok r →
        (generateSnowflakeWithState s e m b now wait).state.lastTimestamp = r.timestamp
        ∧ r.id = constructSnowflakeId r.timestamp e m
            (generateSnowflakeWithState s e m b now wait).state.sequence) := by
  constructor
  · intro err herr
    rw [generate_eq] at herr ⊢
    by_cases h1 : now < s.lastTimestamp
    · by_cases h2 : s.lastTimestamp - now > 5000
      · rw [if_pos h1, if_pos h2]
      · rw [if_pos h1, if_neg h2] at herr
        exact absurd herr (by simp)
    · rw [if_neg h1] at herr
      exact absurd herr (by simp)
  · intro r hr
    obtain ⟨hst, hid, -, -, -, -⟩ := generate_ok_spec s e m b now wait r hw hr
    rw [hst]
    exact ⟨rfl, hid⟩

/-- **C6**: the sequence field invariant.  A successful call leaves the
state's sequence equal to the returned sequence, always in `[0, 4095]`; the
sequence is `0` whenever the timestamp used for the id is beyond the stored
`lastTimestamp` (including the first call, where `lastTimestamp = -1`, and
the exhaustion rollover); a call landing in the same millisecond uses
`(previous sequence + 1) % 4096`; and on exhaustion (wrap to `0`) the call
uses the waited-for next millisecond together with the wrapped value `0`. -/
theorem sequence_invariant (s : GeneratorState) (e : Int) (m : Nat) (b : Bool)
    (now : Int) (wait : Int → Int) (r : GenResult)
    (hw : ∀ t, t < wait t)
    (hr : (generateSnowflakeWithState s e m b now wait).result = Except.ok r) :
    (generateSnowflakeWithState s e m b now wait).state.sequence = r.sequence
    ∧ r.sequence ≤ 4095
    ∧ (s.lastTimestamp < r.timestamp → r.sequence = 0)
    ∧ (r.timestamp = s.lastTimestamp → r.sequence = (s.sequence + 1) % 4096)
    ∧ (now = s.lastTimestamp → (s.sequence + 1) &&& MAX_SEQUENCE = 0 →
        r.timestamp = wait s.lastTimestamp ∧ r.sequence = 0) := by
  have hmask : ∀ x : Nat, x &&& MAX_SEQUENCE ≤ 4095 := fun x =>
    le_trans Nat.and_le_right (by decide)
  by_cases h1 : now < s.lastTimestamp
  · by_cases h2 : s.lastTimestamp - now > 5000
    · have hout : (generateSnowflakeWithState s e m b now wait).result =
          Except.error { drift := s.lastTimestamp - now } := by
        rw [generate_eq]
        simp [h1, h2]
      rw [hout] at hr
      exact absurd hr (by simp)
    · have hwait := hw s.lastTimestamp
      have hne : ¬ wait s.lastTimestamp = s.lastTimestamp := by omega
      have hout : generateSnowflakeWithState s e m b now wait =
          { warnings := if b then [s.lastTimestamp - now] else []
            result := Except.ok
              { id := constructSnowflakeId (wait s.lastTimestamp) e m 0
                timestamp := wait s.lastTimestamp, sequence := 0 }
            state := { sequence := 0, lastTimestamp := wait s.lastTimestamp } } := by
        rw [generate_eq]
        simp [h1, h2, generateTail, hne]
      rw [hout] at hr ⊢
      dsimp only at hr ⊢
      injection hr with hrr
      subst hrr
      dsimp only
      exact ⟨rfl, by omega, fun _ => rfl, fun h => absurd h (by omega),
        fun h _ => absurd h (by omega)⟩
  · by_cases h3 : now = s.lastTimestamp
    · by_cases h4 : (s.sequence + 1) &&& MAX_SEQUENCE = 0
      · have hwait := hw s.lastTimestamp
        have hout : generateSnowflakeWithState s e m b now wait =
            { warnings := []
              result := Except.ok
                { id := constructSnowflakeId (wait s.lastTimestamp) e m
                    ((s.sequence + 1) &&& MAX_SEQUENCE)
                  timestamp := wait s.lastTimestamp
                  sequence := (s.sequence + 1) &&& MAX_SEQUENCE }
              state := { sequence := (s.sequence + 1) &&& MAX_SEQUENCE
                         lastTimestamp := wait s.lastTimestamp } } := by
          rw [generate_eq]
          simp only [if_neg h1, generateTail, if_pos h3, if_pos h4]
        rw [hout] at hr ⊢
        dsimp only at hr ⊢
        injection hr with hrr
        subst hrr
        dsimp only
        exact ⟨rfl, hmask _, fun _ => h4, fun h => absurd h (by omega),
          fun _ _ => ⟨rfl, h4⟩⟩
      · have hout : generateSnowflakeWithState s e m b now wait =
            { warnings := []
              result := Except.ok
                { id := constructSnowflakeId now e m ((s.sequence + 1) &&& MAX_SEQUENCE)
                  timestamp := now, sequence := (s.sequence + 1) &&& MAX_SEQUENCE }
              state := { sequence := (s.sequence + 1) &&& MAX_SEQUENCE
                         lastTimestamp := now } } := by
          rw [generate_eq]
          simp only [if_neg h1, generateTail, if_pos h3, if_neg h4]
        rw [hout] at hr ⊢
        dsimp only at hr ⊢
        injection hr with hrr
        subst hrr
        dsimp only
        refine ⟨rfl, hmask _, fun h => absurd h (by omega),
          fun _ => and_max_sequence_eq_mod (s.sequence + 1), fun _ h => absurd h h4⟩
    · have hlt : s.lastTimestamp < now := by omega
      have hout : generateSnowflakeWithState s e m b now wait =
          { warnings := []
            result := Except.ok
              { id := constructSnowflakeId now e m 0, timestamp := now, sequence := 0 }
            state := { sequence := 0, lastTimestamp := now } } := by
        rw [generate_eq]
        simp only [if_neg h1, generateTail, if_neg h3]
      rw [hout] at hr ⊢
      dsimp only at hr ⊢
      injection hr with hrr
      subst hrr
      dsimp only
      exact ⟨rfl, by omega, fun _ => rfl, fun h => absurd h h3, fun h _ => absurd h h3⟩

/-- **C2**: over two consecutive successful calls on one generator state
with a non-decreasing wall clock (the second reading is at least the
timestamp the first call ended on) and exit-correct busy-waits, the second
id is strictly greater than the first, across all branches. -/
theorem generate_strict_mono (s : GeneratorState) (e : Int) (m : Nat) (b1 b2 : Bool)
    (now1 now2 : Int) (w1 w2 : Int → Int) (r1 r2 : GenResult)
    (hm : m ≤ 1023)
    (hw1 : ∀ t, t < w1 t) (hw2 : ∀ t, t < w2 t)
    (he : e ≤ now1)
    (h1r : (generateSnowflakeWithState s e m b1 now1 w1).result = Except.ok r1)
    (hclock : r1.timestamp ≤ now2)
    (h2r : (generateSnowflakeWithState ((generateSnowflakeWithState s e m b1 now1 w1).state)
        e m b2 now2 w2).result = Except.ok r2) :
    r1.id < r2.id := by
  obtain ⟨hst1, hid1, hsq1, hnow1, hlast1, -⟩ :=
    generate_ok_spec s e m b1 now1 w1 r1 hw1 h1r
  obtain ⟨-, hid2, hsq2, hnow2, hlast2, hsame2⟩ :=
    generate_ok_spec ((generateSnowflakeWithState s e m b1 now1 w1).state)
      e m b2 now2 w2 r2 hw2 h2r
  rw [hst1] at hlast2 hsame2
  dsimp only at hlast2 hsame2
  have he1 : e ≤ r1.timestamp := by omega
  have he2 : e ≤ r2.timestamp := by omega
  rw [hid1, constructSnowflakeId_eq r1.timestamp e m r1.sequence he1 hm hsq1]
  rw [hid2, constructSnowflakeId_eq r2.timestamp e m r2.sequence he2 hm hsq2]
  rcases lt_or_eq_of_le hlast2 with hlt | heq
  · have hm' : (m : Int) ≤ 1023 := by exact_mod_cast hm
    have hs1' : (r1.sequence : Int) ≤ 4095 := by exact_mod_cast hsq1
    have hs2' : (0 : Int) ≤ (r2.sequence : Int) := by positivity
    nlinarith [hlt, hm', hs1', hs2', he1]
  · obtain ⟨hseq2, hne2⟩ := hsame2 heq.symm
    rw [and_max_sequence_eq_mod] at hseq2
    have hz : r2.sequence = r1.sequence + 1 := by
      rcases Nat.lt_or_ge r1.sequence 4095 with hlt' | hge
      · rw [hseq2, Nat.mod_eq_of_lt (by omega)]
      · have : r1.sequence = 4095 := by omega
        rw [hseq2, this] at hne2 ⊢
        simp at hne2
    rw [← heq, hz]
    push_cast
    omega

/-- Witness for C2: two calls in the same millisecond
(`now1 = now2 = 1000`), the second incrementing the sequence. -/
theorem generate_strict_mono_witness :
    (generateSnowflakeWithState createGeneratorState 0 5 true 1000 (fun t => t + 1)).result
      = Except.ok { id := 4194324480, timestamp := 1000, sequence := 0 }
    ∧ (4194324480 : Int) < 4194324481
    ∧ (4194324480 : Int) =
        ({ id := 4194324480, timestamp := 1000, sequence := 0 } : GenResult).id :=
  ⟨rfl,
    generate_strict_mono createGeneratorState 0 5 true true 1000 1000
      (fun t => t + 1) (fun t => t + 1)
      { id := 4194324480, timestamp := 1000, sequence := 0 }
      { id := 4194324481, timestamp := 1000, sequence := 1 }
      (by decide) (fun t => lt_add_one t) (fun t => lt_add_one t) (by decide) rfl (by decide) rfl,
    rfl⟩

/-- Witness for C3: a backward jump of 8000 ms errors with drift 8000; a
backward jump of 4000 ms succeeds with the waited timestamp 10001. -/
theorem clock_drift_spec_witness :
    ((generateSnowflakeWithState { sequence := 0, lastTimestamp := 10000 } 0 1 true 2000
        (fun t => t + 1)).result = Except.error { drift := 8000 }
      ↔ (2000 : Int) < 10000 ∧ (5000 : Int) < 10000 - 2000 ∧
          ({ drift := 8000 } : ClockDriftError) = { drift := 10000 - 2000 })
    ∧ ((generateSnowflakeWithState { sequence := 0, lastTimestamp := 10000 } 0 1 true 6000
          (fun t => t + 1)).result =
        Except.ok { id := constructSnowflakeId 10001 0 1 0, timestamp := 10001, sequence := 0 }
        ∧ (10000 : Int) < 10001) :=
  ⟨(clock_drift_spec { sequence := 0, lastTimestamp := 10000 } 0 1 true 2000
      (fun t => t + 1) (fun t => lt_add_one t)).1 { drift := 8000 },
    (clock_drift_spec { sequence := 0, lastTimestamp := 10000 } 0 1 true 6000
      (fun t => t + 1) (fun t => lt_add_one t)).2 (by decide) (by decide)⟩

/-- Witness for C4 on a successful first call at `now = 5`. -/
theorem generate_atomic_witness :
    (generateSnowflakeWithState createGeneratorState 0 1 true 5 (fun t => t + 1)).state.lastTimestamp
        = ({ id := 20975616, timestamp := 5, sequence := 0 } : GenResult).timestamp
    ∧ ({ id := 20975616, timestamp := 5, sequence := 0 } : GenResult).id =
        constructSnowflakeId ({ id := 20975616, timestamp := 5, sequence := 0 } : GenResult).timestamp 0 1
          (generateSnowflakeWithState createGeneratorState 0 1 true 5 (fun t => t + 1)).state.sequence :=
  (generate_atomic createGeneratorState 0 1 true 5 (fun t => t + 1) (fun t => lt_add_one t)).2
    { id := 20975616, timestamp := 5, sequence := 0 } rfl

/-- Witness for C6 on a same-millisecond second call: state
`{sequence := 0, lastTimestamp := 1000}`, call at `now = 1000`. -/
theorem sequence_invariant_witness :
    (generateSnowflakeWithState { sequence := 0, lastTimestamp := 1000 } 0 5 true 1000
        (fun t => t + 1)).state.sequence =
      ({ id := 4194324481, timestamp := 1000, sequence := 1 } : GenResult).sequence
    ∧ ({ id := 4194324481, timestamp := 1000, sequence := 1 } : GenResult).sequence ≤ 4095
    ∧ ((1000 : Int) < 1000 →
        ({ id := 4194324481, timestamp := 1000, sequence := 1 } : GenResult).sequence = 0)
    ∧ ((1000 : Int) = 1000 →
        ({ id := 4194324481, timestamp := 1000, sequence := 1 } : GenResult).sequence = (0 + 1) % 4096)
    ∧ ((1000 : Int) = 1000 → (0 + 1) &&& MAX_SEQUENCE = 0 →
        ({ id := 4194324481, timestamp := 1000, sequence := 1 } : GenResult).timestamp = 1001 ∧
        ({ id := 4194324481, timestamp := 1000, sequence := 1 } : GenResult).sequence = 0) :=
  sequence_invariant { sequence := 0, lastTimestamp := 1000 } 0 5 true 1000
    (fun t => t + 1) { id := 4194324481, timestamp := 1000, sequence := 1 }
    (fun t => lt_add_one t) rfl

/-- **C7 — counterexample**: the code lets the 41-bit timestamp field
overflow into the sign bit.  With the constructible configuration
`epoch = -1` (valid at a construction clock of `0`) a first call at
`now = 2^41 - 1` produces the id `2^63`, whose top bit is not `0`. -/
theorem top_bit_counterexample :
    createSnowflakeGenerator (some 0) (some (-1)) (some true) 0 0 0 =
      Except.ok { machineId := 0, epoch := -1, warnOnDrift := true }
    ∧ (generateSnowflakeWithState createGeneratorState (-1) 0 true (2 ^ 41 - 1)
          (fun t => t + 1)).result
        = Except.ok { id := 2 ^ 63, timestamp := 2 ^ 41 - 1, sequence := 0 }
    ∧ ¬ ((2 : Int) ^ 63 < 2 ^ 63) :=
  ⟨rfl, rfl, by decide⟩

/-- **C7 (amended)**: every identifier produced by a successful call whose
final timestamp `t` satisfies `0 ≤ t - epoch < 2^41` (the non-overflowing
range), with `machineId ≤ 1023`, has its top (sign) bit equal to zero:
`0 ≤ id < 2^63`. -/
theorem top_bit_zero (s : GeneratorState) (e : Int) (m : Nat) (b : Bool)
    (now : Int) (wait : Int → Int) (r : GenResult)
    (hm : m ≤ 1023) (hw : ∀ t, t < wait t)
    (hr : (generateSnowflakeWithState s e m b now wait).result = Except.ok r)
    (h0 : 0 ≤ r.timestamp - e) (h41 : r.timestamp - e < 2 ^ 41) :
    0 ≤ r.id ∧ r.id < 2 ^ 63 := by
  obtain ⟨-, hid, hsq, -, -, -⟩ := generate_ok_spec s e m b now wait r hw hr
  rw [hid, constructSnowflakeId_eq r.timestamp e m r.sequence (by omega) hm hsq]
  have hm' : (m : Int) ≤ 1023 := by exact_mod_cast hm
  have hm0 : (0 : Int) ≤ (m : Int) := by positivity
  have hs' : (r.sequence : Int) ≤ 4095 := by exact_mod_cast hsq
  have hs0 : (0 : Int) ≤ (r.sequence : Int) := by positivity
  have e22 : (2 : Int) ^ 22 = 4194304 := by norm_num
  have e12 : (2 : Int) ^ 12 = 4096 := by norm_num
  have e63 : (2 : Int) ^ 63 = 9223372036854775808 := by norm_num
  have e41 : (2 : Int) ^ 41 = 2199023255552 := by norm_num
  rw [e41] at h41
  rw [e22, e12, e63]
  constructor
  · nlinarith
  · nlinarith

/-- Witness for C7 (amended): first call at `now = 1000` with `epoch = 0`,
`machineId = 5`. -/
theorem top_bit_zero_witness :
    0 ≤ ({ id := 4194324480, timestamp := 1000, sequence := 0 } : GenResult).id
    ∧ ({ id := 4194324480, timestamp := 1000, sequence := 0 } : GenResult).id < 2 ^ 63 :=
  top_bit_zero createGeneratorState 0 5 true 1000 (fun t => t + 1)
    { id := 4194324480, timestamp := 1000, sequence := 0 }
    (by decide) (fun t => lt_add_one t) rfl (by decide) (by decide)

/-- **C8**: constructing a generator with an explicitly supplied machineId
raises `InvalidMachineId` (carrying that machine id) exactly when the id is
outside `[0, 1023]` — for example `machineId = 1024` — and the construction
then yields no generator; an explicit machineId in `[0, 1023]` never raises
this error. -/
theorem invalid_machine_id_spec (mid : Int) (optE : Option Int) (optW : Option Bool)
    (hash0 hash1 : Nat) (nowc : Int) (err : Int) :
    createSnowflakeGenerator (some mid) optE optW hash0 hash1 nowc =
        Except.error (ConstructionError.invalidMachineId err)
      ↔ err = mid ∧ (mid < 0 ∨ 1023 < mid) := by
  have c1023 : ((MAX_MACHINE_ID : Nat) : Int) = 1023 := by decide
  rw [createSnowflakeGenerator, validateMachineId, validateEpoch]
  by_cases h : mid < 0 ∨ (MAX_MACHINE_ID : Int) < mid
  · rw [if_pos h]
    dsimp only
    constructor
    · intro hh
      injection hh with hh
      injection hh with hh
      exact ⟨hh.symm, by omega⟩
    · rintro ⟨rfl, -⟩
      rfl
  · rw [if_neg h]
    dsimp only
    rw [c1023] at h
    by_cases h2 : nowc ≤ (optE.getD ((DEFAULT_EPOCH : Nat) : Int))
    · rw [if_pos h2]
      dsimp only
      constructor
      · intro hh
        injection hh with hh
        exact absurd hh (by simp)
      · rintro ⟨rfl, habs⟩
        omega
    · rw [if_neg h2]
      dsimp only
      constructor
      · intro hh
        exact absurd hh (by simp)
      · rintro ⟨rfl, habs⟩
        omega

/-- Witness for C8: `machineId = 1024` errors; `machineId = 5` does not. -/
theorem invalid_machine_id_spec_witness :
    createSnowflakeGenerator (some 1024) none none 0 0 0 =
        Except.error (ConstructionError.invalidMachineId 1024)
    ∧ ¬ (createSnowflakeGenerator (some 5) none none 0 0 0 =
        Except.error (ConstructionError.invalidMachineId 5)) :=
  ⟨(invalid_machine_id_spec 1024 none none 0 0 0 1024).mpr ⟨rfl, Or.inr (by decide)⟩,
    fun h => absurd ((invalid_machine_id_spec 5 none none 0 0 0 5).mp h) (by decide)⟩

/-- **C10**: when `options.machineId` is omitted, the hostname-hash machine
id (and the random fallback, for any `Math.random()` value in `[0,1)`)
always lies in `[0, 1023]` because of the `& MAX_MACHINE_ID` mask (resp. the
floor of a scaled unit value), and construction on the default path can
never fail with `InvalidMachineId`: its machine id is the masked hash
value. -/
theorem default_machine_id_safe (hash0 hash1 : Nat) (r : ℚ) (optE : Option Int)
    (optW : Option Bool) (nowc : Int) (err : Int)
    (hr0 : 0 ≤ r) (hr1 : r < 1) :
    generateMachineIdFromHostname hash0 hash1 ≤ 1023
    ∧ 0 ≤ randomMachineIdFallback r ∧ randomMachineIdFallback r ≤ 1023
    ∧ createSnowflakeGenerator none optE optW hash0 hash1 nowc ≠
        Except.error (ConstructionError.invalidMachineId err)
    ∧ (∀ cfg, createSnowflakeGenerator none optE optW hash0 hash1 nowc = Except.ok cfg →
        cfg.machineId = ((generateMachineIdFromHostname hash0 hash1 : Nat) : Int)
        ∧ 0 ≤ cfg.machineId ∧ cfg.machineId ≤ 1023) := by
  have hMQ : ((MAX_MACHINE_ID : Nat) : ℚ) + 1 = 1024 := by
    rw [show MAX_MACHINE_ID = 1023 by decide]
    norm_num
  have hhash : generateMachineIdFromHostname hash0 hash1 ≤ 1023 :=
    le_trans Nat.and_le_right (by decide)
  have hfall0 : 0 ≤ randomMachineIdFallback r := by
    rw [randomMachineIdFallback]
    positivity
  have hfall1 : randomMachineIdFallback r ≤ 1023 := by
    have : randomMachineIdFallback r < 1024 := by
      rw [randomMachineIdFallback, hMQ]
      exact Int.floor_lt.mpr (by push_cast; nlinarith)
    omega
  refine ⟨hhash, hfall0, hfall1, ?_, ?_⟩
  · rw [createSnowflakeGenerator, validateEpoch]
    by_cases h2 : nowc ≤ (optE.getD ((DEFAULT_EPOCH : Nat) : Int))
    · rw [if_pos h2]
      simp
    · rw [if_neg h2]
      simp
  · intro cfg hcfg
    rw [createSnowflakeGenerator, validateEpoch] at hcfg
    by_cases h2 : nowc ≤ (optE.getD ((DEFAULT_EPOCH : Nat) : Int))
    · rw [if_pos h2] at hcfg
      exact absurd hcfg (by simp)
    · rw [if_neg h2] at hcfg
      dsimp only at hcfg
      injection hcfg with hcfg
      subst hcfg
      refine ⟨rfl, by positivity, ?_⟩
      calc ((generateMachineIdFromHostname hash0 hash1 : Nat) : Int)
        ≤ (1023 : Nat) := by exact_mod_cast hhash
        _ = 1023 := by norm_num

/-- Witness for C10 at `hash0 = 171`, `hash1 = 205`, `r = 1/2`. -/
theorem default_machine_id_safe_witness :
    generateMachineIdFromHostname 171 205 ≤ 1023
    ∧ 0 ≤ randomMachineIdFallback (1 / 2) ∧ randomMachineIdFallback (1 / 2) ≤ 1023
    ∧ createSnowflakeGenerator none none none 171 205 1752383159011 ≠
        Except.error (ConstructionError.invalidMachineId 5)
    ∧ (∀ cfg, createSnowflakeGenerator none none none 171 205 1752383159011 = Except.ok cfg →
        cfg.machineId = ((generateMachineIdFromHostname 171 205 : Nat) : Int)
        ∧ 0 ≤ cfg.machineId ∧ cfg.machineId ≤ 1023) :=
  default_machine_id_safe 171 205 (1 / 2) none none 1752383159011 5
    (by norm_num) (by norm_num)

end Snowflake
